import Mathlib

/-!
# Verification of the SGT_test_overhead transaction coordinators

Shallow embedding of the two transaction coordinators of the repository:

* `src/include/svcc/cc/2pl_table/transaction_coordinator.hpp` (SS2PL, namespace
  `twopl_table::transaction`), embedded below in namespace `twopl_table`;
* `src/include/svcc/cc/nofalsenegatives/transaction_coordinator.hpp` (SGT,
  namespace `nofalsenegatives::transaction`), embedded below in namespace
  `nofalsenegatives`.

Machine integers (`uint64_t`) are modelled as `Nat` with explicit `% 2 ^ 64`
where wrap-around matters.  The thread-local coordinator state
(`not_alive_`, `abort_transaction_`, `atom_info_`) together with the cell
bookkeeping the operations receive by reference (`column`, `lsn_column`,
`rw_table`, `locking` / `locked`) is packed into one explicit state record;
each operation is a pure function from state (plus arguments) to
result × state.  The lock manager (SS2PL) and the serialization graph (SGT)
live in separate headers that are not part of the repository snapshot, so
they are abstracted as parameters: an opaque state type together with the
functions the coordinator calls on it.

Sets (`std::unordered_set<uint64_t>`) are modelled as `List Nat` with
set-like insert (no duplicate) and erase-by-key (removes every copy).
-/

/-- `std::unordered_set::insert`: adds the key unless it is already present. -/
def setInsert (x : Nat) (l : List Nat) : List Nat :=
  if l.contains x then l else x :: l

/-- `std::unordered_set::erase(key)`: removes the key (sets hold one copy;
on list states with duplicates every copy is removed, matching key erasure). -/
def setErase (x : Nat) (l : List Nat) : List Nat :=
  l.filter (fun y => y != x)

/-- Apply `f` to the element at index `i`, if any (used for per-cell updates). -/
def listModify (f : α → α) : Nat → List α → List α
  | _, [] => []
  | 0, x :: xs => f x :: xs
  | n + 1, x :: xs => x :: listModify f n xs

/-- `rw_table[offset]->erase(prv)`: drop the entry with ticket `prv` from the
access list of cell `offset`.  A cell's list holds `(ticket, access record)`
pairs. -/
def rwErase (rw : List (List (Nat × Nat))) (offset prv : Nat) :
    List (List (Nat × Nat)) :=
  listModify (fun l => l.filter (fun p => p.1 != prv)) offset rw

/-! ## Access-record encoding

Both coordinator headers define `access` and `find` verbatim identically
(2pl_table lines 83–90, nofalsenegatives lines 85–92):

```cpp
inline static constexpr uint64_t access(const uint64_t transaction, const bool rw) {
  return rw ? 0x8000000000000000 | transaction : 0x7FFFFFFFFFFFFFFF & transaction;
}
inline static constexpr std::tuple<uint64_t, bool> find(const uint64_t encoded_id) {
  return std::make_tuple(0x7FFFFFFFFFFFFFFF & encoded_id, encoded_id >> 63);
}
```
-/

/-- `access`: encode a transaction id and a read/write flag into one 64-bit
record (top bit = mode, low 63 bits = id).  The argument is a `uint64_t`,
hence the `% 2 ^ 64`. -/
def access (transaction : Nat) (rw : Bool) : Nat :=
  let transaction := transaction % 2 ^ 64
  if rw then 0x8000000000000000 ||| transaction
  else 0x7FFFFFFFFFFFFFFF &&& transaction

/-- `find`: decode an access record into `(transaction, mode)`; the second
component is the C++ `uint64_t → bool` conversion of `encoded_id >> 63`. -/
def find (encoded_id : Nat) : Nat × Bool :=
  let encoded_id := encoded_id % 2 ^ 64
  (0x7FFFFFFFFFFFFFFF &&& encoded_id, (encoded_id >>> 63) != 0)

/-- Masking with the low-63-bit mask is the identity on ids below `2 ^ 63`. -/
theorem land_mask_of_lt (t : Nat) (h : t < 2 ^ 63) :
    0x7FFFFFFFFFFFFFFF &&& t = t := by
  have hmask : (0x7FFFFFFFFFFFFFFF : Nat) = 2 ^ 63 - 1 := by norm_num
  rw [hmask]
  apply Nat.eq_of_testBit_eq
  intro i
  rw [Nat.testBit_land, Nat.testBit_two_pow_sub_one]
  by_cases hi : i < 63
  · simp [hi]
  · have hle : 2 ^ 63 ≤ 2 ^ i :=
      Nat.pow_le_pow_right (by norm_num) (le_of_not_lt hi)
    have ht : t.testBit i = Bool.false :=
      Nat.testBit_lt_two_pow (lt_of_lt_of_le h hle)
    simp [hi, ht]

/-- Masking with the low-63-bit mask removes the mode bit set by a write
access. -/
theorem land_mask_lor_of_lt (t : Nat) (h : t < 2 ^ 63) :
    0x7FFFFFFFFFFFFFFF &&& (2 ^ 63 ||| t) = t := by
  have hmask : (0x7FFFFFFFFFFFFFFF : Nat) = 2 ^ 63 - 1 := by norm_num
  rw [hmask]
  apply Nat.eq_of_testBit_eq
  intro i
  rw [Nat.testBit_land, Nat.testBit_lor, Nat.testBit_two_pow_sub_one,
    Nat.testBit_two_pow]
  by_cases hi : i < 63
  · have h63 : ¬(63 = i) := by omega
    simp [hi, h63]
  · have hle : 2 ^ 63 ≤ 2 ^ i :=
      Nat.pow_le_pow_right (by norm_num) (le_of_not_lt hi)
    have ht : t.testBit i = Bool.false :=
      Nat.testBit_lt_two_pow (lt_of_lt_of_le h hle)
    simp [hi, ht]

/-- Claim C10: for every transaction id `tx < 2 ^ 63` and every mode flag `m`,
`find (access tx m) = (tx, m)` — the 64-bit access-record encoding with the
top bit as mode and the low 63 bits as the transaction id is reversible. -/
theorem access_find_roundtrip (transaction : Nat) (rw : Bool)
    (h : transaction < 2 ^ 63) :
    find (access transaction rw) = (transaction, rw) := by
  have h64 : transaction < 2 ^ 64 := lt_trans h (by norm_num)
  have hmod : transaction % 2 ^ 64 = transaction := Nat.mod_eq_of_lt h64
  cases rw with
  | false =>
    have hacc : access transaction false = transaction := by
      simp only [access, hmod]
      exact land_mask_of_lt transaction h
    have hsh : transaction >>> 63 = 0 := by
      rw [Nat.shiftRight_eq_div_pow]
      exact Nat.div_eq_of_lt h
    simp only [find, hacc, hmod, hsh, land_mask_of_lt transaction h]
    rfl
  | true =>
    have hacc : access transaction true = 2 ^ 63 ||| transaction := by
      simp only [access, hmod]
      norm_num
    have hlt : 2 ^ 63 ||| transaction < 2 ^ 64 :=
      Nat.or_lt_two_pow (by norm_num) h64
    have hmod2 : (2 ^ 63 ||| transaction) % 2 ^ 64 = 2 ^ 63 ||| transaction :=
      Nat.mod_eq_of_lt hlt
    have hbit : (2 ^ 63 ||| transaction).testBit 63 = Bool.true := by
      rw [Nat.testBit_lor, Nat.testBit_two_pow]
      simp
    have hge : 2 ^ 63 ≤ 2 ^ 63 ||| transaction := Nat.testBit_implies_ge hbit
    have hsh : (2 ^ 63 ||| transaction) >>> 63 = 1 := by
      rw [Nat.shiftRight_eq_div_pow]
      apply Nat.div_eq_of_lt_le
      · simpa using hge
      · have h2 : ((1 : Nat) + 1) * 2 ^ 63 = 2 ^ 64 := by norm_num
        rw [h2]
        exact hlt
    simp only [find, hacc, hmod2, hsh, land_mask_lor_of_lt transaction h]
    rfl

/-- Witness for C10 at `tx = 5`, `m = true`. -/
theorem access_find_roundtrip_witness :
    5 < 2 ^ 63 ∧ find (access 5 true) = (5, true) :=
  ⟨by norm_num, access_find_roundtrip 5 true (by norm_num)⟩

/-! ## Undo-log records

Modelled from the spec: the `TransactionInformationBase` hierarchy
(`ReadTransactionInformation` / `WriteTransactionInformation`) lives in
`transaction_information.hpp`, which is not part of the repository snapshot;
only its constructor calls and the virtual calls `isWriteTransaction`,
`isAbort`, `writeValue` (undo replay), `unlock`, `deleteFromRWTable` appear
in the coordinator headers.  Spec §3 describes the records as tagged
variants: a *read* entry `(rw_table_ref, locked_ref, prv, offset, tx)` and a
*write* entry with additionally `(column_ref, new_value, old_value,
abort_flag)`.  The container references are the state components themselves
here, so only the scalar payload is stored. -/
inductive TransactionInformation where
  | ReadTransactionInformation (prv offset transaction : Nat)
  | WriteTransactionInformation (writeValue oldValue : Nat)
      (prv offset transaction : Nat) (abortFlag : Bool)
  deriving Repr, DecidableEq

/-- `t->isWriteTransaction()`. -/
def TransactionInformation.isWriteTransaction : TransactionInformation → Bool
  | .ReadTransactionInformation .. => false
  | .WriteTransactionInformation .. => true

/-- `t->isAbort()`: the stored `abort` flag (read entries are never replayed,
their flag is `false`). -/
def TransactionInformation.isAbort : TransactionInformation → Bool
  | .ReadTransactionInformation .. => false
  | .WriteTransactionInformation _ _ _ _ _ ab => ab

/-- Ticket stored in the record. -/
def TransactionInformation.prv : TransactionInformation → Nat
  | .ReadTransactionInformation p _ _ => p
  | .WriteTransactionInformation _ _ p _ _ _ => p

/-- Cell offset stored in the record. -/
def TransactionInformation.offset : TransactionInformation → Nat
  | .ReadTransactionInformation _ o _ => o
  | .WriteTransactionInformation _ _ _ o _ _ => o

/-- Owning transaction stored in the record. -/
def TransactionInformation.transaction : TransactionInformation → Nat
  | .ReadTransactionInformation _ _ t => t
  | .WriteTransactionInformation _ _ _ _ t _ => t

/-- The undo-replay loop of `abort` (both coordinators):

```cpp
for (auto t : *atom_info_) {
  if (!t->isWriteTransaction() || t->isAbort()) continue;
  t->writeValue(*this);
}
```

`t->writeValue(*this)` re-enters the coordinator's `writeValue` with the
compile-time `abort = true` flag, whose whole effect on the modelled state is
`column.replace(offset, old_value)` (spec §4.5: restore the old value).
`std::list` iteration is front-to-back and `emplace_front` prepends, so the
`foldl` replays in reverse chronological order. -/
def replayWrites (atom_info : List TransactionInformation)
    (column : List Nat) : List Nat :=
  atom_info.foldl
    (fun col t =>
      if !t.isWriteTransaction || t.isAbort then col
      else
        match t with
        | .ReadTransactionInformation .. => col
        | .WriteTransactionInformation _ oldValue _ offset _ _ =>
            col.set offset oldValue)
    column

/-- `t->deleteFromRWTable()` folded over the whole undo log: erase each
record's ticket from its cell's access list. -/
def deleteAllFromRWTable (atom_info : List TransactionInformation)
    (rw : List (List (Nat × Nat))) : List (List (Nat × Nat)) :=
  atom_info.foldl (fun r t => rwErase r t.offset t.prv) rw

/-! ## SS2PL coordinator (`twopl_table::transaction::TransactionCoordinator`) -/

namespace twopl_table

/-- Modelled from the spec: the shared/exclusive `LockManager` lives in
`lock_manager.hpp`, which is not part of the repository snapshot.  The
coordinator calls exactly four entry points on it (spec §4.3); they are
abstracted as pure functions over an opaque lock-manager state `L` (the
per-cell `locking` vector is owned by the manager in this model).
`lock lk transaction exclusive offset abort_set` returns the grant decision,
the new lock state, and the (possibly grown) `abort_transaction_` set that
the manager receives by reference. -/
structure LockEnv (L : Type) where
  lock : L → Nat → Bool → Nat → List Nat → Bool × L × List Nat
  unlock : L → Nat → Nat → L
  endTx : L → Nat → L

/-- The state touched by the SS2PL coordinator: the thread-local members
`not_alive_`, `abort_transaction_`, `atom_info_` and the cell bookkeeping
passed by reference to every operation (`column`, `lsn_column`, `rw_table`),
plus the abstract lock-manager state holding `locking`. -/
structure State (L : Type) where
  not_alive : List Nat
  abort_transaction : List Nat
  atom_info : List TransactionInformation
  column : List Nat
  lsn_column : List Nat
  rw_table : List (List (Nat × Nat))
  locking : L
  deriving Repr, DecidableEq

variable {L : Type}

/-- The teardown loop shared by `abort` and `commit`:

```cpp
for (auto t : *atom_info_) {
  t->unlock(&lock_manager_);
  t->deleteFromRWTable();
  t->deallocate(alloc_);
}
```

`unlock` affects only the lock state and `deleteFromRWTable` only
`rw_table`, so the interleaved per-record loop is a fold producing both. -/
def teardown (env : LockEnv L) (atom_info : List TransactionInformation)
    (lk : L) (rw : List (List (Nat × Nat))) : L × List (List (Nat × Nat)) :=
  atom_info.foldl
    (fun p t => (env.unlock p.1 t.transaction t.offset, rwErase p.2 t.offset t.prv))
    (lk, rw)

/-- `abort` (2pl_table lines 243–273): insert into `not_alive_`, replay the
writes, then unlock / unlink / deallocate every record and destroy
`atom_info_` (the epoch guard is out of scope). -/
def abort (env : LockEnv L) (s : State L) (transaction : Nat) : State L :=
  let s := { s with not_alive := setInsert transaction s.not_alive }
  let column := replayWrites s.atom_info s.column
  let p := teardown env s.atom_info s.locking s.rw_table
  { s with column := column, locking := p.1, rw_table := p.2, atom_info := [] }

/-- `readValue` (2pl_table lines 99–139).  The C++ returns `bool` with the
loaded value in an out-parameter; the pair is an `Option Nat` here
(`some v` = `true` with `readValue = v`, `none` = `false`). -/
def readValue (env : LockEnv L) (s : State L) (offset transaction : Nat) :
    Option Nat × State L :=
  if s.not_alive.contains transaction then (none, s)
  else
    let r := env.lock s.locking transaction false offset s.abort_transaction
    let s := { s with locking := r.2.1, abort_transaction := r.2.2 }
    if r.1 = false then (none, twopl_table.abort env s transaction)
    else
      let v := s.column.getD offset 0
      (some v,
        { s with atom_info :=
            (TransactionInformation.ReadTransactionInformation 0 offset transaction
              :: s.atom_info) })

/-- `read` (2pl_table lines 141–174): like `readValue` but returns a
`uint64_t` (`0` = failure, `1` = success), performs no load, and records
nothing in the undo log. -/
def read (env : LockEnv L) (s : State L) (offset transaction : Nat) :
    Nat × State L :=
  if s.not_alive.contains transaction then (0, s)
  else
    let r := env.lock s.locking transaction false offset s.abort_transaction
    let s := { s with locking := r.2.1, abort_transaction := r.2.2 }
    if r.1 = false then (0, twopl_table.abort env s transaction)
    else (1, s)

/-- `writeValue` (2pl_table lines 196–236); `abort` is the compile-time
template flag. -/
def writeValue (ab : Bool) (env : LockEnv L) (s : State L)
    (writeValue offset transaction : Nat) : Bool × State L :=
  if ab = false then
    if s.not_alive.contains transaction then (false, s)
    else
      let r := env.lock s.locking transaction true offset s.abort_transaction
      let s := { s with locking := r.2.1, abort_transaction := r.2.2 }
      if r.1 = false then (false, twopl_table.abort env s transaction)
      else
        let old := s.column.getD offset 0
        let s := { s with column := s.column.set offset writeValue }
        (true,
          { s with atom_info :=
              (TransactionInformation.WriteTransactionInformation writeValue old
                0 offset transaction ab :: s.atom_info) })
  else
    (true, { s with column := s.column.set offset writeValue })

/-- `commit` (2pl_table lines 278–311).  The C++ out-parameter `oset` is
returned as an `Option`: `some os` means `oset = os` was assigned, `none`
means `commit` never touched it. -/
def commit (env : LockEnv L) (s : State L) (transaction : Nat) :
    Bool × Option (List Nat) × State L :=
  if s.not_alive.contains transaction then
    (false, some s.abort_transaction,
      { s with not_alive := setErase transaction s.not_alive,
               locking := env.endTx s.locking transaction })
  else
    let p := teardown env s.atom_info s.locking s.rw_table
    (true, none,
      { s with locking := env.endTx p.1 transaction, rw_table := p.2,
               atom_info := [] })

end twopl_table

/-! ## SGT coordinator (`nofalsenegatives::transaction::TransactionCoordinator`) -/

namespace nofalsenegatives

/-- Modelled from the spec: the `SerializationGraph` lives in
`serialization_graph.hpp`, which is not part of the repository snapshot.
The coordinator calls `needsAbort`, `abort` (which walks cascading edges and
grows the `abort_transaction_` set it receives by reference) and
`checkCommited` on it; they are abstracted over an opaque graph state `G`
(`createNode` is only reached from `start`, which no claim exercises). -/
structure SgEnv (G : Type) where
  needsAbort : G → Nat → Bool
  sgAbort : G → List Nat → G × List Nat
  checkCommited : G → Bool

/-- The state touched by the SGT coordinator: the thread-local members plus
the cell bookkeeping passed by reference (`column`, `lsn_column`,
`rw_table`, and the per-cell spin-lock word vector `locked`), plus the
abstract serialization-graph state. -/
structure State (G : Type) where
  not_alive : List Nat
  abort_transaction : List Nat
  atom_info : List TransactionInformation
  column : List Nat
  lsn_column : List Nat
  rw_table : List (List (Nat × Nat))
  locked : List Nat
  graph : G
  deriving Repr, DecidableEq

variable {G : Type}

/-- The "acquire" spin of readValue/read/writeValue:

```cpp
uint64_t lockInfo = locked[offset];
while(__sync_bool_compare_and_swap(&lockInfo, 0, 1)) {;}
```

The CAS target is the stack-local copy `lockInfo`, not `locked[offset]`:
the loop runs exactly once when the copy is `0` (the CAS succeeds, setting
the copy to `1`) and zero times otherwise, and `locked[offset]` itself is
never written.  The result is the final value of the local copy. -/
def casAcquireLocal (lockInfo : Nat) : Nat :=
  if lockInfo = 0 then 1 else lockInfo

/-- The "release" CAS `__sync_bool_compare_and_swap(&lockInfo, 1, 0);`,
again on the stack-local copy only. -/
def casReleaseLocal (lockInfo : Nat) : Nat :=
  if lockInfo = 1 then 0 else lockInfo

/-- `abort` (nofalsenegatives lines 405–430): insert into `not_alive_`,
replay the writes, let the graph cascade into `abort_transaction_`, then
unlink / deallocate every record and destroy `atom_info_`. -/
def abort (env : SgEnv G) (s : State G) (transaction : Nat) : State G :=
  let s := { s with not_alive := setInsert transaction s.not_alive }
  let column := replayWrites s.atom_info s.column
  let p := env.sgAbort s.graph s.abort_transaction
  let rw := deleteAllFromRWTable s.atom_info s.rw_table
  { s with column := column, graph := p.1, abort_transaction := p.2,
           rw_table := rw, atom_info := [] }

/-- `readValue` (nofalsenegatives lines 101–179).  The ticket acquisition,
cycle check, `lsn` release and undo-record append are commented out in the
source; what executes is: the `not_alive_` check, the `needsAbort` check
(self-abort on `true`), the CAS dance on the local copy of
`locked[offset]`, and the load of `column[offset]`. -/
def readValue (env : SgEnv G) (s : State G) (offset transaction : Nat) :
    Option Nat × State G :=
  if s.not_alive.contains transaction then (none, s)
  else if env.needsAbort s.graph transaction then
    (none, nofalsenegatives.abort env s transaction)
  else
    let lockInfo := casAcquireLocal (s.locked.getD offset 0)
    let v := s.column.getD offset 0
    let _ := casReleaseLocal lockInfo
    (some v, s)

/-- `read` (nofalsenegatives lines 181–252): like `readValue` but returns a
`uint64_t` (`0` = failure, `1` = success) and performs no load. -/
def read (env : SgEnv G) (s : State G) (offset transaction : Nat) :
    Nat × State G :=
  if s.not_alive.contains transaction then (0, s)
  else if env.needsAbort s.graph transaction then
    (0, nofalsenegatives.abort env s transaction)
  else
    let lockInfo := casAcquireLocal (s.locked.getD offset 0)
    let _ := casReleaseLocal lockInfo
    (1, s)

/-- `writeValue` (nofalsenegatives lines 276–398); `abort` is the
compile-time template flag.  The ticket acquisition, the ww-wait loop, the
edge insertion, the `lsn` release and the undo-record append are commented
out in the source; what executes is: the (`!abort`-guarded) `not_alive_`
and `needsAbort` checks, the CAS dance on the local copy of
`locked[offset]`, and `column.replace(offset, writeValue)`. -/
def writeValue (ab : Bool) (env : SgEnv G) (s : State G)
    (writeValue offset transaction : Nat) : Bool × State G :=
  if ab = false ∧ s.not_alive.contains transaction then (false, s)
  else if ab = false ∧ env.needsAbort s.graph transaction then
    (false, nofalsenegatives.abort env s transaction)
  else
    let lockInfo := casAcquireLocal (s.locked.getD offset 0)
    let s := { s with column := s.column.set offset writeValue }
    let _ := casReleaseLocal lockInfo
    (true, s)

/-- The barrier loop of `commit` (nofalsenegatives lines 444–468):

```cpp
while (!all_pending_transactions_commited) {
  if tx ∈ not_alive_: erase, oset = abort_transaction_, return false
  if sg_.needsAbort(tx): abort, erase, oset = abort_transaction_, return false
  all_pending_transactions_commited = sg_.checkCommited();
  if (all_pending_transactions_commited) { unlink and deallocate records }
}
return true
```

Modelled with explicit fuel (`none` = the spin did not terminate within the
fuel); one recursive step per loop iteration. -/
def commitLoop (env : SgEnv G) (transaction : Nat) :
    Nat → Bool → State G → Option (Bool × Option (List Nat) × State G)
  | 0, _, _ => none
  | fuel + 1, all_pending_transactions_commited, s =>
    if all_pending_transactions_commited then some (true, none, s)
    else if s.not_alive.contains transaction then
      some (false, some s.abort_transaction,
        { s with not_alive := setErase transaction s.not_alive })
    else if env.needsAbort s.graph transaction then
      let s := nofalsenegatives.abort env s transaction
      some (false, some s.abort_transaction,
        { s with not_alive := setErase transaction s.not_alive })
    else
      let c := env.checkCommited s.graph
      let s :=
        if c then
          { s with rw_table := deleteAllFromRWTable s.atom_info s.rw_table }
        else s
      commitLoop env transaction fuel c s

/-- `commit` (nofalsenegatives lines 435–479).  The guard variable is
initialized to `true` immediately before the `while (!guard)` loop, so the
loop body is dead code and the fuel is irrelevant.  The out-parameter
`oset` is an `Option` as in the SS2PL model. -/
def commit (env : SgEnv G) (s : State G) (transaction : Nat) :
    Option (Bool × Option (List Nat) × State G) :=
  let all_pending_transactions_commited := true
  commitLoop env transaction 64 all_pending_transactions_commited s

end nofalsenegatives

/-! ## Concrete fixtures

A trivial lock manager (grants everything, no victims) and a trivial
serialization graph (no abort needed, everything committed), plus small
states over a single-cell column, used for witnesses and counterexamples. -/

/-- Lock manager oracle that grants every request and never victimizes. -/
def trivialLockEnv : twopl_table.LockEnv Unit :=
  ⟨fun lk _ _ _ ab => (true, lk, ab), fun lk _ _ => lk, fun lk _ => lk⟩

/-- Serialization-graph oracle: no abort needed, cascade is a no-op,
everything committed. -/
def trivialSgEnv : nofalsenegatives.SgEnv Unit :=
  ⟨fun _ _ => false, fun g ab => (g, ab), fun _ => true⟩

/-- Fresh SS2PL state: one cell holding `0`, nothing alive-dead, empty logs. -/
def exTwoplState : twopl_table.State Unit :=
  ⟨[], [], [], [0], [0], [[]], ()⟩

/-- SS2PL state in which transaction `1` is already in `not_alive_` and the
cascade set holds `7`. -/
def deadTwoplState : twopl_table.State Unit :=
  ⟨[1], [7], [], [0], [0], [[]], ()⟩

/-- Fresh SGT state: one cell holding `0`, spin word `0`, empty logs. -/
def exSgState : nofalsenegatives.State Unit :=
  ⟨[], [], [], [0], [0], [[]], [0], ()⟩

/-- SGT state in which transaction `1` is already in `not_alive_` and the
cascade set holds `7`. -/
def deadSgState : nofalsenegatives.State Unit :=
  ⟨[1], [7], [], [0], [0], [[]], [0], ()⟩

/-! ## Claim theorems -/

/-- Claim C4: in the SGT coordinator, `commit(tx, oset)` returns `true` for
every transaction and every state — including when `tx` is in `not_alive`
or its graph node needs abort: the barrier loop's guard variable is
initialized to `true` so the loop body never executes, and `commit` never
assigns `oset` (the `Option` stays `none`), never removes `tx` from
`not_alive`, and never unlinks or deallocates the transaction's undo
records (the result state is exactly the input state). -/
theorem sgt_commit_always_true (G : Type) (env : nofalsenegatives.SgEnv G)
    (s : nofalsenegatives.State G) (transaction : Nat) :
    nofalsenegatives.commit env s transaction = some (true, none, s) := rfl

/-- Claim C5 (refuted — the code contradicts the spec's intent): the SGT
`readValue`, `read` and `writeValue` never write the per-cell spin-lock
word at all.  The source copies `locked[offset]` into the stack local
`lockInfo` and CASes the local, so `locked` is unchanged in every result
state — in particular it is never changed from 0 to 1 as the claim
states. -/
theorem sgt_ops_never_write_locked (G : Type) (env : nofalsenegatives.SgEnv G)
    (s : nofalsenegatives.State G) (offset transaction v : Nat) :
    ((nofalsenegatives.readValue env s offset transaction).2.locked = s.locked) ∧
    ((nofalsenegatives.read env s offset transaction).2.locked = s.locked) ∧
    ((nofalsenegatives.writeValue false env s v offset transaction).2.locked
      = s.locked) ∧
    ((nofalsenegatives.writeValue true env s v offset transaction).2.locked
      = s.locked) := by
  refine ⟨?_, ?_, ?_, ?_⟩ <;>
    · simp only [nofalsenegatives.readValue, nofalsenegatives.read,
        nofalsenegatives.writeValue, nofalsenegatives.abort]
      split_ifs <;> rfl

/-- Claim C7: in both coordinators, `writeValue` instantiated with
`abort = true` always returns `true`, replaces `column[offset]` with the
new value, performs no `not_alive` or conflict check (the behaviour is the
same for every state), appends no undo record, and changes no coordinator
state other than the column cell. -/
theorem write_abort_flag_swaps_unconditionally (L G : Type)
    (lenv : twopl_table.LockEnv L) (genv : nofalsenegatives.SgEnv G)
    (s2 : twopl_table.State L) (sg : nofalsenegatives.State G)
    (v offset transaction : Nat) :
    twopl_table.writeValue true lenv s2 v offset transaction =
      (true, { s2 with column := s2.column.set offset v }) ∧
    nofalsenegatives.writeValue true genv sg v offset transaction =
      (true, { sg with column := sg.column.set offset v }) := by
  constructor <;> rfl

/-- Claim C6: for every `tx` in `not_alive`, `readValue`, `read` and
`writeValue` (instantiated with `abort = false`) of both coordinators
return `false` (or `0`) immediately, leaving the whole coordinator state —
column values, `rw_table`, lock state and the undo log `atom_info` —
unchanged. -/
theorem dead_transaction_ops_no_side_effects (L G : Type)
    (lenv : twopl_table.LockEnv L) (genv : nofalsenegatives.SgEnv G)
    (s2 : twopl_table.State L) (sg : nofalsenegatives.State G)
    (offset transaction v : Nat)
    (h2 : s2.not_alive.contains transaction = true)
    (hg : sg.not_alive.contains transaction = true) :
    twopl_table.readValue lenv s2 offset transaction = (none, s2) ∧
    twopl_table.read lenv s2 offset transaction = (0, s2) ∧
    twopl_table.writeValue false lenv s2 v offset transaction = (false, s2) ∧
    nofalsenegatives.readValue genv sg offset transaction = (none, sg) ∧
    nofalsenegatives.read genv sg offset transaction = (0, sg) ∧
    nofalsenegatives.writeValue false genv sg v offset transaction
      = (false, sg) := by
  refine ⟨?_, ?_, ?_, ?_, ?_, ?_⟩
  · simp only [twopl_table.readValue]; rw [h2]; rfl
  · simp only [twopl_table.read]; rw [h2]; rfl
  · simp only [twopl_table.writeValue]; rw [h2]; rfl
  · simp only [nofalsenegatives.readValue]; rw [hg]; rfl
  · simp only [nofalsenegatives.read]; rw [hg]; rfl
  · simp only [nofalsenegatives.writeValue]; rw [hg]; rfl

/-- Witness for C6 at the dead states with `tx = 1`. -/
theorem dead_transaction_ops_no_side_effects_witness :
    deadTwoplState.not_alive.contains 1 = true ∧
    deadSgState.not_alive.contains 1 = true ∧
    (twopl_table.readValue trivialLockEnv deadTwoplState 0 1
        = (none, deadTwoplState) ∧
      twopl_table.read trivialLockEnv deadTwoplState 0 1 = (0, deadTwoplState) ∧
      twopl_table.writeValue false trivialLockEnv deadTwoplState 5 0 1
        = (false, deadTwoplState) ∧
      nofalsenegatives.readValue trivialSgEnv deadSgState 0 1
        = (none, deadSgState) ∧
      nofalsenegatives.read trivialSgEnv deadSgState 0 1 = (0, deadSgState) ∧
      nofalsenegatives.writeValue false trivialSgEnv deadSgState 5 0 1
        = (false, deadSgState)) :=
  ⟨rfl, rfl,
    dead_transaction_ops_no_side_effects Unit Unit trivialLockEnv trivialSgEnv
      deadTwoplState deadSgState 0 1 5 rfl rfl⟩

/-- Claim C8: in the SS2PL coordinator, when `tx` is alive, `readValue` and
`writeValue` follow the lock manager's decision: on a grant, an undo entry
recording the access is prepended to `atom_info` and the operation
succeeds; on a denial, the coordinator aborts `tx` (the result state is
exactly `abort` applied to the state carrying the manager's updates) and
fails. -/
theorem twopl_grant_records_denial_aborts (L : Type)
    (env : twopl_table.LockEnv L) (s : twopl_table.State L)
    (offset transaction v : Nat)
    (halive : s.not_alive.contains transaction = false) :
    (∀ l2 a2,
      env.lock s.locking transaction false offset s.abort_transaction
          = (true, l2, a2) →
      twopl_table.readValue env s offset transaction =
        (some (s.column.getD offset 0),
          { s with locking := l2, abort_transaction := a2,
                   atom_info :=
            (TransactionInformation.ReadTransactionInformation 0 offset
              transaction :: s.atom_info) })) ∧
    (∀ l2 a2,
      env.lock s.locking transaction false offset s.abort_transaction
          = (false, l2, a2) →
      twopl_table.readValue env s offset transaction =
        (none, twopl_table.abort env
          { s with locking := l2, abort_transaction := a2 } transaction)) ∧
    (∀ l2 a2,
      env.lock s.locking transaction true offset s.abort_transaction
          = (true, l2, a2) →
      twopl_table.writeValue false env s v offset transaction =
        (true,
          { s with locking := l2, abort_transaction := a2,
                   column := s.column.set offset v,
                   atom_info :=
            (TransactionInformation.WriteTransactionInformation v
              (s.column.getD offset 0) 0 offset transaction false
              :: s.atom_info) })) ∧
    (∀ l2 a2,
      env.lock s.locking transaction true offset s.abort_transaction
          = (false, l2, a2) →
      twopl_table.writeValue false env s v offset transaction =
        (false, twopl_table.abort env
          { s with locking := l2, abort_transaction := a2 } transaction)) := by
  refine ⟨?_, ?_, ?_, ?_⟩ <;> intro l2 a2 hlk <;>
    · first
        | (simp only [twopl_table.readValue]; rw [halive, hlk]; rfl)
        | (simp only [twopl_table.writeValue]; rw [halive, hlk]; rfl)

/-- Witness for C8: the grant path of `readValue` at the fresh state with
the always-granting lock manager. -/
theorem twopl_grant_records_denial_aborts_witness :
    exTwoplState.not_alive.contains 1 = false ∧
    twopl_table.readValue trivialLockEnv exTwoplState 0 1 =
      (some 0,
        { exTwoplState with atom_info :=
            [TransactionInformation.ReadTransactionInformation 0 0 1] }) :=
  ⟨rfl,
    (twopl_grant_records_denial_aborts Unit trivialLockEnv exTwoplState 0 1 5
      rfl).1 () [] rfl⟩

/-- Counterexample for C9: at the fresh SS2PL state, with a lock manager
that grants the request, a successful `readValue` prepends a read undo
record to `atom_info` while `read` records nothing, so the two entry
points do not leave identical coordinator states. -/
theorem read_readValue_state_identity_fails :
    ¬ ((twopl_table.readValue trivialLockEnv exTwoplState 0 1).2 =
        (twopl_table.read trivialLockEnv exTwoplState 0 1).2) := by decide

/-- Claim C9 (amended): for every starting state and arguments, `read`
succeeds (returns nonzero) exactly when `readValue` succeeds, and the two
entry points agree on the whole coordinator state except that in the SS2PL
coordinator a successful `readValue` additionally prepends a read undo
record to `atom_info` (which `read` does not; on failure their states are
identical); in the SGT coordinator the resulting states are identical.
Beyond that they differ only in whether the loaded value is returned. -/
theorem read_readValue_agree_except_undo_record (L G : Type)
    (lenv : twopl_table.LockEnv L) (genv : nofalsenegatives.SgEnv G)
    (s2 : twopl_table.State L) (sg : nofalsenegatives.State G)
    (offset transaction : Nat) :
    (((twopl_table.read lenv s2 offset transaction).1 ≠ 0) ↔
      ((twopl_table.readValue lenv s2 offset transaction).1.isSome = true)) ∧
    ((twopl_table.read lenv s2 offset transaction).1 ≠ 0 →
      (twopl_table.readValue lenv s2 offset transaction).2 =
        { (twopl_table.read lenv s2 offset transaction).2 with
            atom_info :=
          (TransactionInformation.ReadTransactionInformation 0 offset
            transaction
            :: (twopl_table.read lenv s2 offset transaction).2.atom_info) }) ∧
    ((twopl_table.read lenv s2 offset transaction).1 = 0 →
      (twopl_table.readValue lenv s2 offset transaction).2 =
        (twopl_table.read lenv s2 offset transaction).2) ∧
    (((nofalsenegatives.read genv sg offset transaction).1 ≠ 0) ↔
      ((nofalsenegatives.readValue genv sg offset transaction).1.isSome
        = true)) ∧
    ((nofalsenegatives.readValue genv sg offset transaction).2 =
      (nofalsenegatives.read genv sg offset transaction).2) := by
  by_cases h2 : s2.not_alive.contains transaction = true
  all_goals by_cases hg : sg.not_alive.contains transaction = true
  all_goals by_cases hna : genv.needsAbort sg.graph transaction = true
  all_goals by_cases hlk :
    (lenv.lock s2.locking transaction false offset s2.abort_transaction).1
      = false
  all_goals
    simp only [twopl_table.read, twopl_table.readValue,
      nofalsenegatives.read, nofalsenegatives.readValue, h2, hg, hna, hlk,
      Bool.not_eq_true] at *
  all_goals
    simp_all [h2, hg, hna, hlk]

/-- Claim C1 (the SGT side is refuted): with transaction `1` in
`not_alive` and `7` in the cascade set, the SS2PL `commit` erases `1` from
`not_alive`, assigns `abort_transaction` to `oset` and returns `false`,
exactly as claimed — but the SGT `commit` returns `true`, never assigns
`oset` and leaves the state untouched, because its barrier loop is dead
code. -/
theorem commit_dead_transaction_divergence :
    deadSgState.not_alive.contains 1 = true ∧
    nofalsenegatives.commit trivialSgEnv deadSgState 1
      = some (true, none, deadSgState) ∧
    twopl_table.commit trivialLockEnv deadTwoplState 1 =
      (false, some [7], { deadTwoplState with not_alive := [] }) := by decide

/-- Claim C2 (refuted): neither coordinator executes the ticket protocol.
At the fresh one-cell states (empty `rw_table[0]`, `lsn[0] = 0`) the four
operations succeed, yet no access record is pushed onto `rw_table[0]` (it
stays empty) and `lsn[0]` is never set to `prv + 1` (it stays `0`).  In
the SS2PL header the protocol is absent; in the SGT header it is commented
out. -/
theorem ticket_protocol_not_executed :
    ((twopl_table.readValue trivialLockEnv exTwoplState 0 1).1 = some 0 ∧
      (twopl_table.readValue trivialLockEnv exTwoplState 0 1).2.rw_table
        = [[]] ∧
      (twopl_table.readValue trivialLockEnv exTwoplState 0 1).2.lsn_column
        = [0]) ∧
    ((twopl_table.writeValue false trivialLockEnv exTwoplState 5 0 1).1
        = true ∧
      (twopl_table.writeValue false trivialLockEnv exTwoplState 5 0 1).2.rw_table
        = [[]] ∧
      (twopl_table.writeValue false trivialLockEnv exTwoplState 5 0 1).2.lsn_column
        = [0]) ∧
    ((nofalsenegatives.readValue trivialSgEnv exSgState 0 1).1 = some 0 ∧
      (nofalsenegatives.readValue trivialSgEnv exSgState 0 1).2.rw_table
        = [[]] ∧
      (nofalsenegatives.readValue trivialSgEnv exSgState 0 1).2.lsn_column
        = [0]) ∧
    ((nofalsenegatives.writeValue false trivialSgEnv exSgState 5 0 1).1
        = true ∧
      (nofalsenegatives.writeValue false trivialSgEnv exSgState 5 0 1).2.rw_table
        = [[]] ∧
      (nofalsenegatives.writeValue false trivialSgEnv exSgState 5 0 1).2.lsn_column
        = [0]) := by decide

/-- Claim C3 (the SGT side is refuted): in a single-transaction run on the
SGT coordinator, transaction `1` successfully writes `5` over the initial
`0` (with `abort = false`) and then aborts — and the column keeps `5`
instead of the pre-write value `0`, because the commented-out `writeValue`
recorded no undo entry for `abort` to replay.  The same run on the SS2PL
coordinator restores the pre-write value, as the claim states. -/
theorem abort_atomicity_divergence :
    (nofalsenegatives.writeValue false trivialSgEnv exSgState 5 0 1).1
      = true ∧
    (nofalsenegatives.abort trivialSgEnv
      (nofalsenegatives.writeValue false trivialSgEnv exSgState 5 0 1).2
      1).column = [5] ∧
    (twopl_table.writeValue false trivialLockEnv exTwoplState 5 0 1).1
      = true ∧
    (twopl_table.abort trivialLockEnv
      (twopl_table.writeValue false trivialLockEnv exTwoplState 5 0 1).2
      1).column = [0] := by decide
